import Mathlib

/-!
# Verification of the generic-recommender retrieval-and-ranking pipeline

Shallow embedding of the repository's data model and operations.

The repository ships documentation (`concept.md`, `architecture.md`, `SETUP.md`)
and the React frontend (`frontend/src`, `api/recommend.ts`).  The backend
pipeline (FastAPI app: candidate generation, embedding, FAISS retrieval with
score fusion, reranking, orchestration) is not among the supplied sources, so
those components are modelled from the specification; every such definition
carries a doc comment starting `Modelled from the spec:`.  The frontend
definitions are translated directly from the TypeScript sources.

Similarity and relevance scores are JavaScript/Python floating-point numbers in
the running system; they are embedded as rationals (`ℚ`), which preserves the
additive and ordering structure that the verified properties are about.
-/

namespace Recommender

/-- Catalogue item (`concept.md` required fields; spec §3 Item): `item_id`,
`title`, `text`, and the precomputed embedding vector. -/
structure Item where
  item_id : String
  title : String
  text : String
  embedding : List ℚ
deriving DecidableEq, Repr

/-- Scored hit, spec §3 ScoredItem: an `item_id` with a similarity or
relevance score. -/
structure ScoredItem where
  item_id : String
  score : ℚ
deriving DecidableEq, Repr

/-- Modelled from the spec: inner-product similarity between two vectors
(spec §3 Catalogue Index, "cosine or inner-product, consistently applied");
the backend FAISS index is not among the supplied sources. -/
def dot (u v : List ℚ) : ℚ :=
  (List.zipWith (· * ·) u v).sum

/-- Ordering used to rank scored entries (spec §4.4 step 4): aggregate score
descending, ties broken deterministically by `item_id` ascending (lexical). -/
def rankRel (a b : String × ℚ) : Prop :=
  b.2 < a.2 ∨ (a.2 = b.2 ∧ a.1 ≤ b.1)

instance : DecidableRel rankRel := fun a b =>
  inferInstanceAs (Decidable (b.2 < a.2 ∨ (a.2 = b.2 ∧ a.1 ≤ b.1)))

instance : IsTotal (String × ℚ) rankRel :=
  ⟨fun a b => by
    rcases lt_trichotomy a.2 b.2 with h | h | h
    · exact Or.inr (Or.inl h)
    · rcases le_total a.1 b.1 with h1 | h1
      · exact Or.inl (Or.inr ⟨h, h1⟩)
      · exact Or.inr (Or.inr ⟨h.symm, h1⟩)
    · exact Or.inl (Or.inl h)⟩

instance : IsTrans (String × ℚ) rankRel :=
  ⟨fun a b c hab hbc => by
    rcases hab with h1 | ⟨h1, h1'⟩ <;> rcases hbc with h2 | ⟨h2, h2'⟩
    · exact Or.inl (h2.trans h1)
    · exact Or.inl (h2 ▸ h1)
    · exact Or.inl (h1 ▸ h2)
    · exact Or.inr ⟨h1.trans h2, h1'.trans h2'⟩⟩

/-- Modelled from the spec: deterministic ranking of a scored pool
(spec §4.4 step 4); the backend implementation is not among the supplied
sources. -/
def rankPool (pool : List (String × ℚ)) : List (String × ℚ) :=
  pool.insertionSort rankRel

/-- Modelled from the spec: the Item Store query, spec §4.1
(`query(vector, k)` returning an ordered list of `(item_id, similarity)` of
length at most `k`); the backend FAISS wrapper is not among the supplied
sources. -/
def queryStore (store : List Item) (v : List ℚ) (k : Nat) : List (String × ℚ) :=
  (rankPool (store.map fun it => (it.item_id, dot it.embedding v))).take k

/-- Modelled from the spec: the aggregate score of one item, "the sum of
similarity scores across all candidate queries that retrieved it"
(spec §4.4 step 3); the backend retriever is not among the supplied sources. -/
def totalScore (id : String) (results : List (List ScoredItem)) : ℚ :=
  ((results.flatten.filter fun it => it.item_id == id).map ScoredItem.score).sum

/-- Modelled from the spec: score fusion — "accumulate, per distinct `item_id`,
the sum of similarity scores across all candidate queries that retrieved it"
(spec §4.4 step 3; spec §9 "fused pool as a mapping from `item_id` to
running-sum score"); the backend retriever is not among the supplied sources. -/
def fuse (results : List (List ScoredItem)) : List (String × ℚ) :=
  ((results.flatten.map ScoredItem.item_id).dedup).map fun id => (id, totalScore id results)

/-- Modelled from the spec: the per-candidate retrieval round of the Retriever
(spec §4.4 steps 1–2) — one Item Store query at depth `K` per candidate
vector; the backend retriever is not among the supplied sources. -/
def retrievalPool (store : List Item) (candVecs : List (List ℚ)) (K : Nat) :
    List (List ScoredItem) :=
  candVecs.map fun v => (queryStore store v K).map fun p => ScoredItem.mk p.1 p.2

/-- Modelled from the spec: the fused candidate pool of the Retriever
(spec §4.4 step 3); the backend retriever is not among the supplied sources. -/
def fusedPool (store : List Item) (candVecs : List (List ℚ)) (K : Nat) :
    List (String × ℚ) :=
  fuse (retrievalPool store candVecs K)

/-- Modelled from the spec: the Retriever (spec §4.4) — query, fuse, rank,
truncate to `numCandidates`; the backend retriever is not among the supplied
sources. -/
def retrieve (store : List Item) (candVecs : List (List ℚ)) (K numCandidates : Nat) :
    List (String × ℚ) :=
  (rankPool (fusedPool store candVecs K)).take numCandidates

/-- Modelled from the spec: relevance-model reranking strategy (spec §4.5) —
score each (context, item-text) pair with the relevance capability `rel`, sort
descending with the deterministic tie-break, truncate to `desiredCount`; the
backend reranker is not among the supplied sources. -/
def rerankRelevance (rel : String → String → ℚ) (userContext : String)
    (items : List Item) (desiredCount : Nat) : List (String × ℚ) :=
  (rankPool (items.map fun it => (it.item_id, rel userContext it.text))).take desiredCount

/-- Modelled from the spec: generative reranking strategy validation
(spec §4.5) — the untrusted generative response's identifiers are filtered
against the presented candidate set, duplicates keep their first occurrence
(spec §9 default policy), and the validated list is truncated to
`desiredCount`; the backend reranker is not among the supplied sources. -/
def rerankGenerative (items : List Item) (returnedIds : List String)
    (desiredCount : Nat) : List String :=
  ((returnedIds.filter fun id => items.any fun it => it.item_id == id).dedup).take desiredCount

/-- Spec §8 fusion example: candidate A retrieves items x:0.9, y:0.5. -/
def exampleCandA : List ScoredItem := [⟨"x", 9/10⟩, ⟨"y", 1/2⟩]

/-- Spec §8 fusion example: candidate B retrieves items x:0.4, z:0.8. -/
def exampleCandB : List ScoredItem := [⟨"x", 2/5⟩, ⟨"z", 4/5⟩]

/-- Spec §8 fusion example: the two per-candidate retrieval results. -/
def exampleResults : List (List ScoredItem) := [exampleCandA, exampleCandB]

/-- The ranked fused pool of the spec §8 example, evaluated. -/
lemma rank_fuse_example_eval :
    rankPool (fuse exampleResults) = [("x", 13/10), ("z", 4/5), ("y", 1/2)] := by
  simp [rankPool, fuse, totalScore, exampleResults, exampleCandA, exampleCandB,
    List.insertionSort, List.orderedInsert, rankRel, List.dedup, List.insert,
    List.filter_cons]
  norm_num [rankRel]

/-- The identifiers of the fused pool are the distinct retrieved identifiers. -/
lemma fuse_map_fst (results : List (List ScoredItem)) :
    (fuse results).map Prod.fst = (results.flatten.map ScoredItem.item_id).dedup := by
  unfold fuse
  rw [List.map_map]
  exact List.map_id' _

/-- Membership in the fused pool. -/
lemma mem_fuse_iff (results : List (List ScoredItem)) (id : String) (s : ℚ) :
    (id, s) ∈ fuse results ↔
      id ∈ results.flatten.map ScoredItem.item_id ∧ s = totalScore id results := by
  constructor
  · intro h
    rcases List.mem_map.mp h with ⟨a, ha, hEq⟩
    obtain ⟨rfl, rfl⟩ := Prod.mk.injEq .. ▸ hEq
    exact ⟨List.mem_dedup.mp ha, rfl⟩
  · rintro ⟨hid, rfl⟩
    exact List.mem_map.2 ⟨id, List.mem_dedup.2 hid, rfl⟩

/-- An all-empty collection of retrieval rounds fuses to the empty pool. -/
lemma fuse_eq_nil (results : List (List ScoredItem)) (h : ∀ l ∈ results, l = []) :
    fuse results = [] := by
  have hflat : results.flatten = [] := List.flatten_eq_nil_iff.mpr h
  simp [fuse, hflat]

/-- Ranking preserves length. -/
lemma rankPool_length (pool : List (String × ℚ)) :
    (rankPool pool).length = pool.length :=
  (List.perm_insertionSort rankRel pool).length_eq

/-- Per-request configuration (spec §6, `config.yaml` in `architecture.md`):
`num_candidates`, `num_results`, and the per-candidate retrieval depth `K`
(spec §4.4 step 2, tunable). -/
structure Config where
  numCandidates : Nat
  numResults : Nat
  retrievalDepth : Nat
deriving DecidableEq, Repr

/-- Response assembled by the orchestrator (spec §4.6): the final scored list
plus the debug trace (candidates used, retrieved count) and whether the
Reranker stage was invoked. -/
structure PipelineResponse where
  recommendations : List (String × ℚ)
  debugCandidates : List String
  debugNumRetrieved : Nat
  rerankerInvoked : Bool
deriving DecidableEq, Repr

/-- Modelled from the spec: the candidate-generation fallback (spec §4.3, §7) —
an empty or failed generation falls back to the raw `user_context` as the
single candidate; the backend orchestrator is not among the supplied sources. -/
def pipelineCandidates (userContext : String)
    (genResult : Except String (List String)) : List String :=
  match genResult with
  | .ok cs => if cs.isEmpty then [userContext] else cs
  | .error _ => [userContext]

/-- Modelled from the spec: the fail-fast dimension check (spec §4.1, §4.2) —
a query vector whose dimension differs from a stored embedding's dimension is
a configuration error; the backend is not among the supplied sources. -/
def dimMismatch (store : List Item) (vecs : List (List ℚ)) : Bool :=
  vecs.any fun v => store.any fun it => v.length != it.embedding.length

/-- Modelled from the spec: the Pipeline Orchestrator (spec §4.6, §7) —
generation fallback, embedding, fail-fast dimension check, retrieval, and the
empty-pool short-circuit that skips the Reranker; the reranking stage is
abstracted as the function `rerank`; the backend orchestrator is not among the
supplied sources. -/
def runPipeline (store : List Item) (embed : String → List ℚ)
    (rerank : List (String × ℚ) → List (String × ℚ))
    (cfg : Config) (userContext : String)
    (genResult : Except String (List String)) : Except String PipelineResponse :=
  let cands := pipelineCandidates userContext genResult
  let vecs := cands.map embed
  if dimMismatch store vecs then
    .error "DimensionMismatch"
  else
    let pool := retrieve store vecs cfg.retrievalDepth cfg.numCandidates
    if pool.isEmpty then
      .ok ⟨[], cands, 0, false⟩
    else
      .ok ⟨(rerank pool).take cfg.numResults, cands, pool.length, true⟩

/-- Front-end `Recommendation` record (`api/recommend.ts`,
src/unnamed/part_000 lines 3–8). -/
structure Recommendation where
  item_id : String
  title : String
  text : String
  score : ℚ
deriving DecidableEq, Repr

/-- Front-end `LatencyBreakdown` record (`api/recommend.ts`,
src/unnamed/part_000 lines 10–16). -/
structure LatencyBreakdown where
  candidate_generation_ms : ℚ
  embedding_ms : ℚ
  vector_search_ms : ℚ
  reranking_ms : ℚ
  total_ms : ℚ
deriving DecidableEq, Repr

/-- Front-end `DebugInfo` record (`api/recommend.ts`,
src/unnamed/part_000 lines 18–23): these are exactly the properties the
response's debug object carries. -/
structure DebugInfo where
  synthetic_candidates : List String
  num_retrieved : Nat
  rerank_model_used : String
  llm_model_used : String
deriving DecidableEq, Repr

/-- Front-end `RecommendResponse` record (`api/recommend.ts`,
src/unnamed/part_000 lines 25–29). -/
structure RecommendResponse where
  recommendations : List Recommendation
  latency : LatencyBreakdown
  debug : DebugInfo
deriving DecidableEq, Repr

/-- Rendering outcome of the `ResultsList` component: either the empty-state
message or the list of recommendation cards. -/
inductive Rendered where
  | emptyState (message : String)
  | cards (recs : List Recommendation)
deriving DecidableEq, Repr

/-- Front-end `ResultsList` component (appended to `LatencyDisplay.tsx`,
lines 44–67): an empty recommendations array renders the empty-state message,
not an error. -/
def ResultsList (recommendations : List Recommendation) : Rendered :=
  if recommendations.length = 0 then Rendered.emptyState "No recommendations yet"
  else Rendered.cards recommendations

/-- Serialization of the debug object: the key/value pairs a
`RecommendResponse`'s `debug` field carries, exactly the `DebugInfo`
properties (src/unnamed/part_000 lines 18–23). -/
def debugInfoFieldList (d : DebugInfo) : List (String × String) :=
  [("synthetic_candidates", String.intercalate "," d.synthetic_candidates),
   ("num_retrieved", toString d.num_retrieved),
   ("rerank_model_used", d.rerank_model_used),
   ("llm_model_used", d.llm_model_used)]

/-- JavaScript property access on a plain object: `none` models `undefined`
for a key the object does not carry. -/
def jsField (fields : List (String × String)) (key : String) : Option String :=
  (fields.find? fun p => p.1 == key).map Prod.snd

/-- Read performed by `DebugPanel.tsx` line 24: `debug.llm_model_used`. -/
def debugPanelModelUsed (d : DebugInfo) : Option String :=
  jsField (debugInfoFieldList d) "llm_model_used"

/-- Read performed by `DebugPanel.tsx` line 28: `debug.rerank_method_used`. -/
def debugPanelRerankMethod (d : DebugInfo) : Option String :=
  jsField (debugInfoFieldList d) "rerank_method_used"

/-- Read performed by `DebugPanel.tsx` line 32: `debug.num_retrieved`. -/
def debugPanelNumRetrieved (d : DebugInfo) : Option String :=
  jsField (debugInfoFieldList d) "num_retrieved"

/-- Read performed by `DebugPanel.tsx` line 37: `debug.synthetic_candidates`. -/
def debugPanelCandidates (d : DebugInfo) : Option String :=
  jsField (debugInfoFieldList d) "synthetic_candidates"

/-- Whitespace characters recognised by JavaScript `String.prototype.trim`
(ASCII whitespace plus NBSP), as exercised by `App.tsx` and `QueryInput.tsx`. -/
def isJsWhitespace (c : Char) : Bool :=
  c == ' ' || c == '\t' || c == '\n' || c == '\r' ||
    c == Char.ofNat 11 || c == Char.ofNat 12 || c == Char.ofNat 160

/-- JavaScript `value.trim()`: strip leading and trailing whitespace. -/
def jsTrim (s : String) : String :=
  String.mk (((s.data.dropWhile isJsWhitespace).reverse.dropWhile isJsWhitespace).reverse)

/-- Component state of `App.tsx` relevant to submissions: the `result`,
`error` and `isLoading` `useState` hooks (lines 20–24). -/
structure AppState where
  result : Option RecommendResponse
  error : Option String
  isLoading : Bool
deriving DecidableEq

/-- The `handleSubmit` handler of `App.tsx` (lines 45–64), as a transition on
the component state once the submission has completed: the guard
`if (!userContext.trim()) return` leaves the state unchanged without issuing a
request; otherwise `setError(null)` runs, the awaited `getRecommendations`
outcome either sets the result (success) or sets the error message and resets
the result to `null` (failure), and `finally` clears `isLoading`.  The second
component records whether `getRecommendations` was called. -/
def handleSubmit (s : AppState) (userContext : String)
    (outcome : Except String RecommendResponse) : AppState × Bool :=
  if jsTrim userContext = "" then (s, false)
  else
    match outcome with
    | .ok resp => ({ result := some resp, error := none, isLoading := false }, true)
    | .error msg => ({ result := none, error := some msg, isLoading := false }, true)

/-- The `disabled` attribute of the submit button in `QueryInput.tsx`
(line 35): `isLoading || !value.trim()`. -/
def submitDisabled (isLoading : Bool) (value : String) : Bool :=
  isLoading || jsTrim value == ""

/-- Error payload of a failed `/recommend` call as `getRecommendations` parses
it: a JSON object that may or may not carry a string `detail` property. -/
structure ErrorPayload where
  detail : Option String
deriving DecidableEq, Repr

/-- An HTTP response as observed by `getRecommendations`: the `ok` flag, the
`statusText`, the outcome of `response.json()` when parsed as an error payload
(`none` models a body that fails to parse), and the parsed success body. -/
structure HttpResponse where
  ok : Bool
  statusText : String
  errorJson : Option ErrorPayload
  okBody : RecommendResponse
deriving DecidableEq, Repr

/-- The `getRecommendations` function of `api/recommend.ts`
(src/unnamed/part_000 lines 47–70).  `Except.error` models `throw new Error`.
On a non-ok response the code runs
`response.json().catch(() => ({ detail: response.statusText }))` and throws
`new Error(error.detail || 'Failed to get recommendations')`; JavaScript
truthiness makes a string falsy exactly when it is empty and `undefined`
falsy always. -/
def getRecommendations (r : HttpResponse) : Except String RecommendResponse :=
  if r.ok then Except.ok r.okBody
  else
    let payload : ErrorPayload :=
      match r.errorJson with
      | some p => p
      | none => ⟨some r.statusText⟩
    match payload.detail with
    | some d =>
      if d = "" then Except.error "Failed to get recommendations"
      else Except.error d
    | none => Except.error "Failed to get recommendations"

/-- The error message of the amended C9 claim, stated from the amended words:
the `detail` field when the body parses as JSON with a non-empty string
`detail`; the `statusText` when the body fails to parse and `statusText` is
non-empty; the fixed fallback text otherwise. -/
def amendedErrorMessage (r : HttpResponse) : String :=
  match r.errorJson with
  | some p =>
    match p.detail with
    | some d => if d = "" then "Failed to get recommendations" else d
    | none => "Failed to get recommendations"
  | none =>
    if r.statusText = "" then "Failed to get recommendations" else r.statusText

/-- A concrete successful response body, used in closed instantiations. -/
def sampleResponse : RecommendResponse :=
  ⟨[], ⟨0, 0, 0, 0, 0⟩, ⟨["c"], 1, "zerank-2", "openai/gpt-4o-mini"⟩⟩

/-- The spec §8 example entry for item x belongs to the fused pool. -/
lemma mem_fuse_example : ("x", (13:ℚ)/10) ∈ fuse exampleResults := by
  have hp : ("x", (13:ℚ)/10) ∈ rankPool (fuse exampleResults) := by
    rw [rank_fuse_example_eval]
    exact List.mem_cons_self _ _
  exact (List.perm_insertionSort rankRel (fuse exampleResults)).mem_iff.mp hp

/-- C1: score fusion assigns each distinct retrieved `item_id` exactly one
entry (the fused identifiers are without duplicates), an identifier has an
entry exactly when some candidate query retrieved it, the entry's score is
the sum of the similarity scores of all hits for that identifier, and on the
spec §8 example the fused pool ranks x (1.3) above z (0.8) above y (0.5). -/
theorem fusion_accumulates_per_distinct_id :
    (∀ results : List (List ScoredItem), ((fuse results).map Prod.fst).Nodup)
    ∧ (∀ (results : List (List ScoredItem)) (id : String),
        (∃ s, (id, s) ∈ fuse results) ↔ id ∈ results.flatten.map ScoredItem.item_id)
    ∧ (∀ (results : List (List ScoredItem)) (id : String) (s : ℚ),
        (id, s) ∈ fuse results → s = totalScore id results)
    ∧ rankPool (fuse exampleResults) = [("x", 13/10), ("z", 4/5), ("y", 1/2)] := by
  refine ⟨fun results => ?_, fun results id => ?_, fun results id s h => ?_,
    rank_fuse_example_eval⟩
  · rw [fuse_map_fst]
    exact List.nodup_dedup _
  · constructor
    · rintro ⟨s, hs⟩
      exact ((mem_fuse_iff results id s).mp hs).1
    · intro hid
      exact ⟨totalScore id results, (mem_fuse_iff results id _).mpr ⟨hid, rfl⟩⟩
  · exact ((mem_fuse_iff results id s).mp h).2

/-- Closed instantiation of C1 on the spec §8 example, discharging the
membership hypotheses there. -/
theorem fusion_accumulates_per_distinct_id_witness :
    ((13:ℚ)/10 = totalScore "x" exampleResults)
    ∧ "x" ∈ exampleResults.flatten.map ScoredItem.item_id :=
  ⟨fusion_accumulates_per_distinct_id.2.2.1 exampleResults "x" (13/10) mem_fuse_example,
   (fusion_accumulates_per_distinct_id.2.1 exampleResults "x").mp
     ⟨13/10, mem_fuse_example⟩⟩

/-- C2: the Retriever's ranking sorts the fused pool by aggregate score
descending with ties broken by `item_id` ascending (lexical), it is a
permutation of the pool (no entry gained or lost), any two entries with equal
scores appear with the lexically smaller identifier first, and identical
inputs produce identical output order. -/
theorem ranking_deterministic_tiebreak :
    (∀ pool : List (String × ℚ), List.Sorted rankRel (rankPool pool))
    ∧ (∀ pool : List (String × ℚ), List.Perm (rankPool pool) pool)
    ∧ (∀ pool : List (String × ℚ),
        (rankPool pool).Pairwise fun a b => a.2 = b.2 → a.1 ≤ b.1)
    ∧ (∀ pool pool2 : List (String × ℚ), pool = pool2 → rankPool pool = rankPool pool2) := by
  refine ⟨fun pool => List.sorted_insertionSort rankRel pool,
    fun pool => List.perm_insertionSort rankRel pool,
    fun pool => ?_, fun pool pool2 h => by rw [h]⟩
  refine (List.sorted_insertionSort rankRel pool).imp ?_
  intro a b hab heq
  rcases hab with h | h
  · exact absurd (heq ▸ h) (lt_irrefl _)
  · exact h.2

/-- Closed instantiation of C2 at a concrete pool, discharging the equal-input
hypothesis there. -/
theorem ranking_deterministic_tiebreak_witness :
    rankPool [("b", 1), ("a", 2)] = rankPool [("b", 1), ("a", 2)] :=
  ranking_deterministic_tiebreak.2.2.2 [("b", 1), ("a", 2)] [("b", 1), ("a", 2)] rfl

/-- Valid generative identifiers are bounded by the number of presented
candidates: the validated list is without duplicates and draws from the
candidate identifiers. -/
lemma rerankGenerative_le_items (items : List Item) (returnedIds : List String) :
    ((returnedIds.filter fun id => items.any fun it => it.item_id == id).dedup).length
      ≤ items.length := by
  set valid := (returnedIds.filter fun id => items.any fun it => it.item_id == id).dedup with hv
  have hnd : valid.Nodup := List.nodup_dedup _
  have hsub : valid.toFinset ⊆ (items.map Item.item_id).toFinset := by
    intro x hx
    rw [List.mem_toFinset] at hx ⊢
    have hx' := List.mem_dedup.mp (hv ▸ hx)
    have hany := (List.mem_filter.mp hx').2
    rcases List.any_eq_true.mp hany with ⟨it, hit, hbeq⟩
    exact List.mem_map.2 ⟨it, hit, by simpa using hbeq⟩
  calc valid.length = valid.toFinset.card := (List.toFinset_card_of_nodup hnd).symm
    _ ≤ (items.map Item.item_id).toFinset.card := Finset.card_le_card hsub
    _ ≤ (items.map Item.item_id).length := List.toFinset_card_le _
    _ = items.length := List.length_map _ _

/-- C3: the Retriever's output length is exactly
`min numCandidates |fused pool|` (all available entries when the pool is
smaller, never padded), and either reranking strategy returns at most
`min desiredCount |candidate pool|` entries. -/
theorem truncation_invariant :
    (∀ (store : List Item) (candVecs : List (List ℚ)) (K nc : Nat),
        (retrieve store candVecs K nc).length = min nc (fusedPool store candVecs K).length)
    ∧ (∀ (rel : String → String → ℚ) (uc : String) (items : List Item) (nr : Nat),
        (rerankRelevance rel uc items nr).length ≤ min nr items.length)
    ∧ (∀ (items : List Item) (returnedIds : List String) (nr : Nat),
        (rerankGenerative items returnedIds nr).length ≤ min nr items.length) := by
  refine ⟨fun store candVecs K nc => ?_, fun rel uc items nr => ?_,
    fun items returnedIds nr => ?_⟩
  · rw [retrieve, List.length_take, rankPool_length]
  · have h : (rerankRelevance rel uc items nr).length = min nr items.length := by
      rw [rerankRelevance, List.length_take, rankPool_length, List.length_map]
    exact h.le
  · rw [rerankGenerative, List.length_take]
    exact min_le_min le_rfl (rerankGenerative_le_items items returnedIds)

/-- C5: the generative reranking strategy returns only identifiers drawn from
the presented candidate set, drops every identifier the generative capability
fabricated, and returns at most `desiredCount` entries (possibly fewer). -/
theorem generative_rerank_drops_unknown_ids :
    ∀ (items : List Item) (returnedIds : List String) (nr : Nat),
    (∀ id ∈ rerankGenerative items returnedIds nr, ∃ it ∈ items, it.item_id = id)
    ∧ (∀ id, id ∉ items.map Item.item_id → id ∉ rerankGenerative items returnedIds nr)
    ∧ (rerankGenerative items returnedIds nr).length ≤ nr := by
  intro items returnedIds nr
  have hmem : ∀ id ∈ rerankGenerative items returnedIds nr, ∃ it ∈ items, it.item_id = id := by
    intro id hid
    have h1 := List.mem_of_mem_take hid
    have h2 := List.mem_dedup.mp h1
    have hany := (List.mem_filter.mp h2).2
    rcases List.any_eq_true.mp hany with ⟨it, hit, hbeq⟩
    exact ⟨it, hit, by simpa using hbeq⟩
  refine ⟨hmem, fun id hnot hid => ?_, ?_⟩
  · rcases hmem id hid with ⟨it, hit, rfl⟩
    exact hnot (List.mem_map.2 ⟨it, hit, rfl⟩)
  · rw [rerankGenerative]
    exact List.length_take_le _ _

/-- Closed instantiation of C5: with candidate item "a" presented and the
generative response `["ghost", "a", "a"]`, the fabricated identifier "ghost"
is dropped, the duplicate is merged, and "a" resolves to a presented item. -/
theorem generative_rerank_drops_unknown_ids_witness :
    (∃ it ∈ [Item.mk "a" "t" "x" []], it.item_id = "a")
    ∧ "ghost" ∉ rerankGenerative [Item.mk "a" "t" "x" []] ["ghost", "a", "a"] 5 :=
  ⟨(generative_rerank_drops_unknown_ids [Item.mk "a" "t" "x" []] ["ghost", "a", "a"] 5).1
      "a" (by decide),
   (generative_rerank_drops_unknown_ids [Item.mk "a" "t" "x" []] ["ghost", "a", "a"] 5).2.1
      "ghost" (by decide)⟩

/-- C4: when the Candidate Generator returns zero candidates, the pipeline
does not fail; it proceeds with the raw `user_context` as the single candidate
for embedding and retrieval and returns a non-error response whose debug trace
records that candidate. -/
theorem generator_empty_fallback (store : List Item) (embed : String → List ℚ)
    (rerank : List (String × ℚ) → List (String × ℚ)) (cfg : Config) (uc : String)
    (hdim : dimMismatch store ((pipelineCandidates uc (Except.ok [])).map embed) = false) :
    pipelineCandidates uc (Except.ok []) = [uc]
    ∧ ∃ r, runPipeline store embed rerank cfg uc (Except.ok []) = Except.ok r
        ∧ r.debugCandidates = [uc] := by
  have hc : pipelineCandidates uc (Except.ok []) = [uc] := rfl
  refine ⟨hc, ?_⟩
  rw [hc] at hdim
  simp only [runPipeline, hc, hdim, Bool.false_eq_true, if_false]
  cases hE : (retrieve store ([uc].map embed) cfg.retrievalDepth cfg.numCandidates).isEmpty <;>
    simp [hE]

/-- Closed instantiation of C4, discharging the dimension hypothesis at a
concrete store, embedder and configuration. -/
theorem generator_empty_fallback_witness :
    pipelineCandidates "hello" (Except.ok []) = ["hello"]
    ∧ ∃ r, runPipeline [] (fun _ => []) id ⟨3, 2, 5⟩ "hello" (Except.ok [])
        = Except.ok r ∧ r.debugCandidates = ["hello"] :=
  generator_empty_fallback [] (fun _ => []) id ⟨3, 2, 5⟩ "hello" (by decide)

/-- C6: when the Item Store is empty or every per-candidate query returns
nothing, the pipeline returns a non-error response with an empty
recommendation list without invoking the Reranker, and the front-end
`ResultsList` renders the empty list as the empty-state message. -/
theorem empty_pool_short_circuit (store : List Item) (embed : String → List ℚ)
    (rerank : List (String × ℚ) → List (String × ℚ)) (cfg : Config) (uc : String)
    (genResult : Except String (List String))
    (hdim : dimMismatch store ((pipelineCandidates uc genResult).map embed) = false)
    (hstore : store = [] ∨ ∀ v ∈ (pipelineCandidates uc genResult).map embed,
        queryStore store v cfg.retrievalDepth = []) :
    runPipeline store embed rerank cfg uc genResult
      = Except.ok ⟨[], pipelineCandidates uc genResult, 0, false⟩
    ∧ ResultsList [] = Rendered.emptyState "No recommendations yet" := by
  have hq : ∀ v ∈ (pipelineCandidates uc genResult).map embed,
      queryStore store v cfg.retrievalDepth = [] := by
    rcases hstore with rfl | hq
    · intro v _
      simp [queryStore, rankPool, List.insertionSort]
    · exact hq
  have hpool : retrieve store ((pipelineCandidates uc genResult).map embed)
      cfg.retrievalDepth cfg.numCandidates = [] := by
    have hfuse : fusedPool store ((pipelineCandidates uc genResult).map embed)
        cfg.retrievalDepth = [] := by
      refine fuse_eq_nil _ ?_
      intro l hl
      rcases List.mem_map.mp hl with ⟨v, hv, rfl⟩
      rw [hq v hv]
      rfl
    rw [retrieve, hfuse]
    simp [rankPool, List.insertionSort]
  refine ⟨?_, rfl⟩
  simp only [runPipeline, hdim, Bool.false_eq_true, if_false, hpool]
  rfl

/-- Closed instantiation of C6 at the empty Item Store, discharging both
hypotheses there. -/
theorem empty_pool_short_circuit_witness :
    runPipeline [] (fun _ => []) id ⟨3, 2, 5⟩ "hi" (Except.ok ["c"])
      = Except.ok ⟨[], ["c"], 0, false⟩
    ∧ ResultsList [] = Rendered.emptyState "No recommendations yet" :=
  empty_pool_short_circuit [] (fun _ => []) id ⟨3, 2, 5⟩ "hi" (Except.ok ["c"])
    (by decide) (Or.inl rfl)

/-- C7: a `user_context` that is empty or consists only of whitespace is
rejected before pipeline entry: its trim is empty, `handleSubmit` returns with
the state unchanged and without calling `getRecommendations` (the issued flag
is `false`), and the submit button is disabled whatever the loading state. -/
theorem empty_context_blocked (uc : String)
    (h : ∀ c ∈ uc.data, isJsWhitespace c = true) :
    jsTrim uc = ""
    ∧ (∀ (s : AppState) (outcome : Except String RecommendResponse),
        handleSubmit s uc outcome = (s, false))
    ∧ (∀ b : Bool, submitDisabled b uc = true) := by
  have ht : jsTrim uc = "" := by
    have h1 : uc.data.dropWhile isJsWhitespace = [] :=
      List.dropWhile_eq_nil_iff.mpr h
    rw [jsTrim, h1]
    rfl
  refine ⟨ht, fun s outcome => ?_, fun b => ?_⟩
  · simp [handleSubmit, ht]
  · simp [submitDisabled, ht]

/-- Closed instantiation of C7 on a whitespace-only `user_context`,
discharging the whitespace hypothesis there. -/
theorem empty_context_blocked_witness :
    jsTrim " " = ""
    ∧ handleSubmit ⟨none, none, false⟩ " " (Except.error "boom")
        = (⟨none, none, false⟩, false)
    ∧ submitDisabled false " " = true :=
  ⟨(empty_context_blocked " " (by decide)).1,
   (empty_context_blocked " " (by decide)).2.1 ⟨none, none, false⟩ (Except.error "boom"),
   (empty_context_blocked " " (by decide)).2.2 false⟩

/-- C8: the debug object carries the synthetic candidates, the retrieved count
and the model fields, and `DebugPanel` successfully reads three of them — but
the Reranking Method section reads the property `rerank_method_used`, which
the response's debug object does not carry (`DebugInfo` declares
`rerank_model_used`), so that read yields `undefined` for every response. -/
theorem debug_panel_rerank_method_missing :
    ∀ d : DebugInfo,
    debugPanelModelUsed d = some d.llm_model_used
    ∧ debugPanelNumRetrieved d = some (toString d.num_retrieved)
    ∧ debugPanelCandidates d = some (String.intercalate "," d.synthetic_candidates)
    ∧ debugPanelRerankMethod d = none := by
  intro d
  refine ⟨?_, ?_, ?_, ?_⟩ <;>
    simp [debugPanelModelUsed, debugPanelRerankMethod, debugPanelNumRetrieved,
      debugPanelCandidates, jsField, debugInfoFieldList]

/-- Helper for C9: on every non-ok response the thrown message is exactly the
one the amended claim describes. -/
lemma getRecommendations_error_eq (st : String) (ej : Option ErrorPayload)
    (body : RecommendResponse) :
    getRecommendations ⟨false, st, ej, body⟩
      = Except.error (amendedErrorMessage ⟨false, st, ej, body⟩) := by
  cases ej with
  | none =>
    by_cases hst : st = "" <;>
      simp [getRecommendations, amendedErrorMessage, hst]
  | some p =>
    cases hp : p.detail with
    | none => simp [getRecommendations, amendedErrorMessage, hp]
    | some d =>
      by_cases hd : d = "" <;>
        simp [getRecommendations, amendedErrorMessage, hp, hd]

/-- C9 (amended): `getRecommendations` returns the parsed body for every ok
response; for every non-ok response it never returns a value and throws the
message given by `amendedErrorMessage` (the `detail` field when the body
parses as JSON with a non-empty string `detail`, the `statusText` when the
body fails to parse and `statusText` is non-empty, and the fixed fallback
text otherwise). -/
theorem getRecommendations_nonok_throws (r : HttpResponse) :
    (r.ok = true → getRecommendations r = Except.ok r.okBody)
    ∧ (r.ok = false → getRecommendations r = Except.error (amendedErrorMessage r))
    ∧ (r.ok = false → ∀ resp, getRecommendations r ≠ Except.ok resp) := by
  obtain ⟨ok, st, ej, body⟩ := r
  cases ok
  · refine ⟨fun h => by simp at h, fun _ => getRecommendations_error_eq st ej body,
      fun _ resp h => ?_⟩
    rw [getRecommendations_error_eq st ej body] at h
    exact Except.noConfusion h
  · exact ⟨fun _ => by simp [getRecommendations],
      fun h => by simp at h, fun h => by simp at h⟩

/-- Closed instantiation of C9's amended theorem at a concrete non-ok
response whose body fails to parse, discharging the non-ok hypothesis
there. -/
theorem getRecommendations_nonok_throws_witness :
    getRecommendations ⟨false, "Server Error", none, sampleResponse⟩
      = Except.error (amendedErrorMessage ⟨false, "Server Error", none, sampleResponse⟩) :=
  (getRecommendations_nonok_throws ⟨false, "Server Error", none, sampleResponse⟩).2.1 rfl

/-- Counterexample to C9 as stated: a non-ok response whose body parses as
JSON with `detail` the empty string.  The claim says the thrown message is
the parsed payload's `detail` field ("") — or, on its other branch, the
`statusText` ("Bad Request") — but the code throws the fixed fallback text,
which is neither. -/
theorem getRecommendations_empty_detail_counterexample :
    getRecommendations ⟨false, "Bad Request", some ⟨some ""⟩, sampleResponse⟩
      = Except.error "Failed to get recommendations"
    ∧ "Failed to get recommendations" ≠ ""
    ∧ "Failed to get recommendations" ≠ "Bad Request" :=
  ⟨rfl, by decide, by decide⟩

/-- C10: after every completed submission the result and error states are
never both non-null: a successful request sets the result and leaves the
error `null`, and a failed request sets the error message and resets the
result to `null`. -/
theorem result_and_error_mutually_exclusive (s : AppState) (uc : String)
    (outcome : Except String RecommendResponse) (h : jsTrim uc ≠ "") :
    (¬((handleSubmit s uc outcome).1.result.isSome = true
        ∧ (handleSubmit s uc outcome).1.error.isSome = true))
    ∧ (∀ resp, outcome = Except.ok resp →
        (handleSubmit s uc outcome).1.result = some resp
        ∧ (handleSubmit s uc outcome).1.error = none)
    ∧ (∀ msg, outcome = Except.error msg →
        (handleSubmit s uc outcome).1.error = some msg
        ∧ (handleSubmit s uc outcome).1.result = none) := by
  cases outcome <;> simp [handleSubmit, h]

/-- Closed instantiation of C10 at a concrete successful submission,
discharging the non-empty-context hypothesis there. -/
theorem result_and_error_mutually_exclusive_witness :
    (¬((handleSubmit ⟨none, none, false⟩ "hi" (Except.ok sampleResponse)).1.result.isSome = true
        ∧ (handleSubmit ⟨none, none, false⟩ "hi" (Except.ok sampleResponse)).1.error.isSome = true))
    ∧ (handleSubmit ⟨none, none, false⟩ "hi" (Except.ok sampleResponse)).1.result
        = some sampleResponse :=
  ⟨(result_and_error_mutually_exclusive ⟨none, none, false⟩ "hi"
      (Except.ok sampleResponse) (by decide)).1,
   ((result_and_error_mutually_exclusive ⟨none, none, false⟩ "hi"
      (Except.ok sampleResponse) (by decide)).2.1 sampleResponse rfl).1⟩

end Recommender
